import Mathlib

/-!
Shallow embedding of `turfpy/transformation.py` (repository `sackh/turfpy`).

The module defines two public functions, `circle` and `polygon_difference`,
plus the private helper `_remove_empty_polygon`.  All genuinely geometric
work is delegated to collaborators that are not part of the sources:
`destination` and `area` (from `turfpy.measurement`), `flatten_each` (from
`turfpy.meta`) and `compute` (from the `martinez` clipping library).  Those
collaborators are modelled as abstract function parameters, except
`flatten_each`, whose traversal order the specification pins down and which
is therefore modelled from the spec below.

Numbers are modelled as exact rationals (`ℚ`): the Python code performs a
single arithmetic operation on them (the bearing division), which is exact
for the purposes of the statements proved here.  Python `dict`s are
association lists with last-occurrence-wins lookup, matching `dict.update`
semantics.  Python exceptions (`ZeroDivisionError` from `i * -360 / radius`
with `radius = 0`, `IndexError` from `coordinates[0]` on an empty list) are
modelled with `Except`.
-/

namespace Turfpy

/-- A GeoJSON position: a list of numeric coordinates. -/
abbrev Position := List ℚ

/-- A linear ring: a list of positions. -/
abbrev LinearRing := List Position

/-- Coordinates of a Polygon geometry: a list of rings. -/
abbrev PolyCoords := List LinearRing

/-- Coordinates of a MultiPolygon geometry: a list of polygon coordinates. -/
abbrev MultiCoords := List PolyCoords

/-- A Python value stored in a keyword-argument / options dictionary. -/
inductive PVal where
  | int (n : Int)
  | str (s : String)
  deriving DecidableEq

/-- A Python dictionary with string keys, as an association list. -/
abbrev PyDict := List (String × PVal)

/-- Lookup in a `PyDict`: the value of the last entry with the given key,
mirroring Python dictionary semantics where later assignments win. -/
def pyGet : PyDict → String → Option PVal
  | [], _ => none
  | kv :: rest, k =>
    match pyGet rest k with
    | some v => some v
    | none => if kv.1 = k then some kv.2 else none

/-- Python `base.update(upd)`: every key of `base` keeps its position but
takes the value from `upd` when `upd` has that key, and the keys of `upd`
not present in `base` are appended. -/
def dictUpdate (base upd : PyDict) : PyDict :=
  (base.map fun kv =>
    match pyGet upd kv.1 with
    | some v => (kv.1, v)
    | none => kv)
  ++ upd.filter fun kv => ! base.any fun kv2 => kv2.1 = kv.1

/-- A GeoJSON Point geometry. -/
structure Point where
  coordinates : Position
  deriving DecidableEq

/-- The Feature returned by the `destination` collaborator: only its
`geometry` field is read by `circle`. -/
structure PointFeature where
  geometry : Point
  deriving DecidableEq

/-- The type of the external geodesic `destination` collaborator
(`turfpy.measurement.destination`): origin point, distance, bearing in
degrees, options dictionary. -/
abbrev Destination := Point → Int → ℚ → PyDict → PointFeature

/-- The runtime errors `circle` can raise: `ZeroDivisionError` from
`i * -360 / radius` when `radius = 0`, and `IndexError` from
`coordinates[0]` when the loop collected nothing. -/
inductive CircleErr where
  | zeroDivisionError
  | indexError
  deriving DecidableEq

/-- The value `Polygon(coordinates, **kwargs)` built by `circle`: the flat
list of positions is stored as the polygon's coordinates exactly as passed,
together with the extra keyword properties. -/
structure CirclePolygon where
  coordinates : List Position
  props : PyDict
  deriving DecidableEq

/-- `options = dict(steps=steps, units=units); options.update(kwargs)`. -/
def circleOptions (steps : Int) (units : String) (kwargs : PyDict) : PyDict :=
  dictUpdate [("steps", PVal.int steps), ("units", PVal.str units)] kwargs

/-- `bearing = i * -360 / radius` for loop index `i` (Python precedence:
`(i * -360) / radius`). -/
def circleBearing (radius : Int) (i : Nat) : ℚ :=
  (i : ℚ) * (-360) / (radius : ℚ)

/-- The list of coordinates collected by `circle`'s loop
`for i in range(steps)`: the `destination` collaborator is called with the
center, the radius as distance, the bearing for `i`, and the options
dictionary, and the returned feature's `geometry.coordinates` is collected. -/
def circleSamples (dest : Destination) (center : Point) (radius : Int)
    (steps : Int) (options : PyDict) : List Position :=
  (List.range steps.toNat).map fun i =>
    (dest center radius (circleBearing radius i) options).geometry.coordinates

/-- `circle(center, radius, steps=64, units="km", **kwargs)`.  When the loop
runs at least once and `radius = 0`, the first bearing computation raises
`ZeroDivisionError`; when the loop runs zero times, `coordinates[0]` raises
`IndexError`; otherwise the ring is closed by appending the first collected
coordinate and `Polygon(coordinates, **kwargs)` is returned. -/
def circle (dest : Destination) (center : Point) (radius : Int)
    (steps : Int) (units : String) (kwargs : PyDict) :
    Except CircleErr CirclePolygon :=
  let options := circleOptions steps units kwargs
  if steps.toNat ≠ 0 ∧ radius = 0 then
    .error CircleErr.zeroDivisionError
  else
    let coordinates := circleSamples dest center radius steps options
    if coordinates.isEmpty then
      .error CircleErr.indexError
    else
      .ok ⟨coordinates ++ [coordinates.headI], kwargs⟩

/-- A GeoJSON geometry accepted by `polygon_difference` per its type
annotation: `Union[Polygon, MultiPolygon]`. -/
inductive Geometry where
  | polygon (coordinates : PolyCoords)
  | multiPolygon (coordinates : MultiCoords)
  deriving DecidableEq

/-- A geometry produced by `_remove_empty_polygon`: either the input
Polygon object returned unchanged, or the raw dictionary
`{"type": "MultiPolygon", "coordinates": coordinates}` built in the
MultiPolygon branch. -/
inductive NormGeom where
  | poly (coordinates : PolyCoords)
  | dictMultiPolygon (coordinates : MultiCoords)
  deriving DecidableEq

/-- The type of the external `area` collaborator
(`turfpy.measurement.area`), as a function of the polygon coordinates of
its argument (both call sites pass a value carrying exactly one polygon's
coordinate rings). -/
abbrev AreaFn := PolyCoords → ℚ

/-- Modelled from the spec: `flatten_each` (from `turfpy.meta`, which is not
among the sources) invokes its callback once per constituent polygon of a
MultiPolygon, in the MultiPolygon's stored order, passing a Feature
wrapping that polygon.  The traversal is represented by the list of
constituent polygon coordinate sets in stored order; the callback of
`_remove_empty_polygon` reads exactly `feature.geometry.coordinates`. -/
def flatten_each (coordinates : MultiCoords) : List PolyCoords :=
  coordinates

/-- `_remove_empty_polygon(geom)`: a Polygon is kept unchanged when its
area exceeds 1 and otherwise `None` is returned; a MultiPolygon is
flattened, the sub-polygons with area exceeding 1 are collected into a raw
MultiPolygon-shaped dictionary, and when none survive the function falls
through, implicitly returning `None`. -/
def remove_empty_polygon (area : AreaFn) : Geometry → Option NormGeom
  | Geometry.polygon c =>
    if area c > 1 then some (NormGeom.poly c) else none
  | Geometry.multiPolygon mc =>
    let coordinates := (flatten_each mc).filter fun sub => area sub > 1
    if coordinates.isEmpty then none
    else some (NormGeom.dictMultiPolygon coordinates)

/-- A contour returned by the clipping primitive. -/
abbrev Contour := List Position

/-- The value returned by `martinez.boolean.compute`: an object exposing a
`contours` sequence. -/
structure ClipResult where
  contours : List Contour
  deriving DecidableEq

/-- `martinez.boolean.OperationType`. -/
inductive OperationType where
  | DIFFERENCE
  | INTERSECTION
  | UNION
  | XOR
  deriving DecidableEq

/-- The type of the external clipping collaborator
(`martinez.boolean.compute`). -/
abbrev ComputeFn := NormGeom → NormGeom → OperationType → ClipResult

/-- The value returned by `polygon_difference`.  Each constructor records
exactly which constructor the Python code invokes and with which
arguments: `None`; `Feature(geom1, properties)`;
`Polygon(differenced.contours, properties)` (a bare Polygon whose
coordinates are the contour list); `MultiPolygon(differenced, properties)`
(a bare MultiPolygon built from the whole clipping-result object). -/
inductive DiffResult where
  | nullResult
  | feature (geometry : NormGeom) (properties : PyDict)
  | polygonOfContours (coordinates : List Contour) (properties : PyDict)
  | multiPolygonOfResult (result : ClipResult) (properties : PyDict)
  deriving DecidableEq

/-- `polygon_difference(polygon1, polygon2)`. -/
def polygon_difference (area : AreaFn) (compute : ComputeFn)
    (polygon1 polygon2 : Geometry) : DiffResult :=
  let properties : PyDict := []
  match remove_empty_polygon area polygon1 with
  | none => DiffResult.nullResult
  | some geom1 =>
    match remove_empty_polygon area polygon2 with
    | none => DiffResult.feature geom1 properties
    | some geom2 =>
      let differenced := compute geom1 geom2 OperationType.DIFFERENCE
      if differenced.contours.length = 0 then
        DiffResult.nullResult
      else if differenced.contours.length = 1 then
        DiffResult.polygonOfContours differenced.contours properties
      else
        DiffResult.multiPolygonOfResult differenced properties

/-- The properties dictionary of a `polygon_difference` result, when the
result is not `None`. -/
def resultProperties : DiffResult → Option PyDict
  | DiffResult.nullResult => none
  | DiffResult.feature _ p => some p
  | DiffResult.polygonOfContours _ p => some p
  | DiffResult.multiPolygonOfResult _ p => some p

/-- Whether a `polygon_difference` result is a `Feature` object (as opposed
to `None` or a bare geometry). -/
def isFeatureResult : DiffResult → Bool
  | DiffResult.feature _ _ => true
  | _ => false

/-! ### Concrete collaborator instances used by witnesses and counterexamples -/

/-- A concrete area collaborator: area 2 for any polygon with at least one
ring, area 0 for an empty coordinate list. -/
def cArea : AreaFn := fun c => if c = [] then 0 else 2

/-- A concrete ring used in examples. -/
def cRing : LinearRing := [[0, 0], [1, 0], [1, 1], [0, 0]]

/-- Concrete polygon coordinates used in examples. -/
def cRings : PolyCoords := [cRing]

/-- A concrete non-empty polygon input. -/
def cP1 : Geometry := Geometry.polygon cRings

/-- Coordinates of a second concrete polygon. -/
def cRings2 : PolyCoords := [[[5, 5], [6, 5], [6, 6], [5, 5]]]

/-- A second concrete non-empty polygon input. -/
def cP2 : Geometry := Geometry.polygon cRings2

/-- A concrete clipping collaborator returning exactly one contour. -/
def cCompute : ComputeFn := fun _ _ _ => ⟨[cRing]⟩

/-- A concrete clipping collaborator returning two contours. -/
def cComputeTwo : ComputeFn := fun _ _ _ => ⟨[cRing, cRing]⟩

/-- A concrete clipping collaborator returning no contour. -/
def cComputeZero : ComputeFn := fun _ _ _ => ⟨[]⟩

/-- A concrete destination collaborator: the returned point records the
bearing and the distance it was called with. -/
def cDest : Destination := fun _ radius bearing _ => ⟨⟨[bearing, (radius : ℚ)]⟩⟩

/-- A concrete center point. -/
def cCenter : Point := ⟨[-75, 39]⟩

/-! ### C5: the Polygon branch of `_remove_empty_polygon` -/

/-- C5: for a Polygon input, `_remove_empty_polygon` returns the geometry
unchanged when the area collaborator reports area strictly greater than 1,
and returns null otherwise. -/
theorem remove_empty_polygon_polygon_cases (area : AreaFn) (c : PolyCoords) :
    (1 < area c →
      remove_empty_polygon area (Geometry.polygon c) = some (NormGeom.poly c)) ∧
    (area c ≤ 1 →
      remove_empty_polygon area (Geometry.polygon c) = none) := by
  constructor
  · intro h
    simp [remove_empty_polygon, h]
  · intro h
    simp [remove_empty_polygon, not_lt.mpr h]

/-- Witness for C5 at concrete inputs: a one-ring polygon of area 2 is kept
unchanged, an empty polygon of area 0 is dropped. -/
theorem remove_empty_polygon_polygon_cases_witness :
    remove_empty_polygon cArea (Geometry.polygon cRings) = some (NormGeom.poly cRings) ∧
    remove_empty_polygon cArea (Geometry.polygon []) = none :=
  ⟨(remove_empty_polygon_polygon_cases cArea cRings).1 (by decide),
   (remove_empty_polygon_polygon_cases cArea []).2 (by decide)⟩

/-! ### C4: normalization and the two empty-input cases of `polygon_difference` -/

/-- C4: `polygon_difference` normalizes both inputs via
`_remove_empty_polygon`; if `polygon1` normalizes to empty it returns null,
and otherwise if `polygon2` normalizes to empty it returns the normalized
`polygon1` wrapped as a Feature with empty properties. -/
theorem polygon_difference_empty_input_cases (area : AreaFn) (compute : ComputeFn)
    (p1 p2 : Geometry) :
    (remove_empty_polygon area p1 = none →
      polygon_difference area compute p1 p2 = DiffResult.nullResult) ∧
    (∀ g1, remove_empty_polygon area p1 = some g1 →
      remove_empty_polygon area p2 = none →
      polygon_difference area compute p1 p2 = DiffResult.feature g1 []) := by
  constructor
  · intro h
    simp [polygon_difference, h]
  · intro g1 h1 h2
    simp [polygon_difference, h1, h2]

/-- Witness for C4 at concrete inputs: an empty first polygon yields null,
an empty second polygon yields the normalized first polygon as a Feature
with empty properties. -/
theorem polygon_difference_empty_input_cases_witness :
    polygon_difference cArea cCompute (Geometry.polygon []) cP1 = DiffResult.nullResult ∧
    polygon_difference cArea cCompute cP1 (Geometry.polygon [])
      = DiffResult.feature (NormGeom.poly cRings) [] :=
  ⟨(polygon_difference_empty_input_cases cArea cCompute (Geometry.polygon []) cP1).1
      (by decide),
   (polygon_difference_empty_input_cases cArea cCompute cP1 (Geometry.polygon [])).2
      (NormGeom.poly cRings) (by decide) (by decide)⟩

/-! ### C7: properties of every returned value are empty -/

/-- C7: whenever `polygon_difference` returns a non-null value, the
properties dictionary it carries is the empty mapping, in every one of the
four result cases. -/
theorem polygon_difference_properties_empty (area : AreaFn) (compute : ComputeFn)
    (p1 p2 : Geometry) :
    resultProperties (polygon_difference area compute p1 p2) = none ∨
    resultProperties (polygon_difference area compute p1 p2) = some [] := by
  rcases h1 : remove_empty_polygon area p1 with _ | g1
  · left
    simp [polygon_difference, h1, resultProperties]
  · rcases h2 : remove_empty_polygon area p2 with _ | g2
    · right
      simp [polygon_difference, h1, h2, resultProperties]
    · simp only [polygon_difference, h1, h2]
      split
      · left
        simp [resultProperties]
      · split
        · right
          simp [resultProperties]
        · right
          simp [resultProperties]

/-! ### C6: the MultiPolygon branch of `_remove_empty_polygon` -/

/-- C6: for a MultiPolygon input, `_remove_empty_polygon` retains exactly
the flattened sub-polygons of area strictly greater than 1 in a
MultiPolygon-shaped structure; when none survives it returns the implicit
empty value, and `polygon_difference` then treats the input identically to
a Polygon that normalizes to null, in either argument position. -/
theorem remove_empty_polygon_multi_cases (area : AreaFn) (mc : MultiCoords) :
    ((flatten_each mc).filter (fun sub => area sub > 1) ≠ [] →
      remove_empty_polygon area (Geometry.multiPolygon mc)
        = some (NormGeom.dictMultiPolygon
            ((flatten_each mc).filter fun sub => area sub > 1))) ∧
    ((flatten_each mc).filter (fun sub => area sub > 1) = [] →
      remove_empty_polygon area (Geometry.multiPolygon mc) = none ∧
      ∀ (c : PolyCoords), area c ≤ 1 →
        ∀ (compute : ComputeFn) (q : Geometry),
          polygon_difference area compute (Geometry.multiPolygon mc) q
            = polygon_difference area compute (Geometry.polygon c) q ∧
          polygon_difference area compute q (Geometry.multiPolygon mc)
            = polygon_difference area compute q (Geometry.polygon c)) := by
  constructor
  · intro h
    simp [remove_empty_polygon, List.isEmpty_iff, h]
  · intro h
    have hm : remove_empty_polygon area (Geometry.multiPolygon mc) = none := by
      simp [remove_empty_polygon, List.isEmpty_iff, h]
    refine ⟨hm, ?_⟩
    intro c hc compute q
    have hp : remove_empty_polygon area (Geometry.polygon c) = none := by
      simp [remove_empty_polygon, not_lt.mpr hc]
    constructor
    · simp [polygon_difference, hm, hp]
    · rcases hq : remove_empty_polygon area q with _ | gq
      · simp [polygon_difference, hq]
      · simp [polygon_difference, hq, hm, hp]

/-- Witness for C6 at concrete inputs: a MultiPolygon with one surviving
sub-polygon is rebuilt from it, one whose only sub-polygon has area 0 is
dropped and then behaves like an empty Polygon in `polygon_difference`. -/
theorem remove_empty_polygon_multi_cases_witness :
    remove_empty_polygon cArea (Geometry.multiPolygon [cRings])
      = some (NormGeom.dictMultiPolygon [cRings]) ∧
    remove_empty_polygon cArea (Geometry.multiPolygon [[]]) = none ∧
    polygon_difference cArea cCompute (Geometry.multiPolygon [[]]) cP1
      = polygon_difference cArea cCompute (Geometry.polygon []) cP1 :=
  ⟨(remove_empty_polygon_multi_cases cArea [cRings]).1 (by decide),
   ((remove_empty_polygon_multi_cases cArea [[]]).2 (by decide)).1,
   (((remove_empty_polygon_multi_cases cArea [[]]).2 (by decide)).2 [] (by decide)
      cCompute cP1).1⟩

/-! ### C1: the three contour cases of `polygon_difference` -/

/-- C1 counterexample: at concrete inputs whose normalized forms are both
non-empty and where the clipping primitive returns exactly one contour,
`polygon_difference` does not return a Feature (contradicting the claim
that one contour yields a Feature wrapping a Polygon): it returns a bare
Polygon object built from the contour list. -/
theorem polygon_difference_one_contour_not_feature :
    remove_empty_polygon cArea cP1 = some (NormGeom.poly cRings) ∧
    remove_empty_polygon cArea cP2 = some (NormGeom.poly cRings2) ∧
    (cCompute (NormGeom.poly cRings) (NormGeom.poly cRings2)
        OperationType.DIFFERENCE).contours.length = 1 ∧
    polygon_difference cArea cCompute cP1 cP2
      = DiffResult.polygonOfContours [cRing] [] ∧
    isFeatureResult (polygon_difference cArea cCompute cP1 cP2) = false := by
  decide

/-- C1 (amended): when both normalized inputs are non-empty, the result is
determined by the contour count of the clipping primitive: zero contours
yields null; exactly one contour yields a bare Polygon object (not wrapped
in a Feature) whose coordinates are the contour list, which contains that
single contour; more than one contour yields a bare MultiPolygon object
(not wrapped in a Feature) built from the whole clipping-result object;
the properties argument passed to either constructor is the empty mapping. -/
theorem polygon_difference_contour_cases (area : AreaFn) (compute : ComputeFn)
    (p1 p2 : Geometry) (g1 g2 : NormGeom)
    (h1 : remove_empty_polygon area p1 = some g1)
    (h2 : remove_empty_polygon area p2 = some g2) :
    ((compute g1 g2 OperationType.DIFFERENCE).contours.length = 0 →
      polygon_difference area compute p1 p2 = DiffResult.nullResult) ∧
    ((compute g1 g2 OperationType.DIFFERENCE).contours.length = 1 →
      polygon_difference area compute p1 p2
        = DiffResult.polygonOfContours
            (compute g1 g2 OperationType.DIFFERENCE).contours []) ∧
    (1 < (compute g1 g2 OperationType.DIFFERENCE).contours.length →
      polygon_difference area compute p1 p2
        = DiffResult.multiPolygonOfResult
            (compute g1 g2 OperationType.DIFFERENCE) []) := by
  refine ⟨?_, ?_, ?_⟩
  · intro h
    simp [polygon_difference, h1, h2, h]
  · intro h
    simp [polygon_difference, h1, h2, h]
  · intro h
    have h0 : (compute g1 g2 OperationType.DIFFERENCE).contours.length ≠ 0 := by omega
    have hone : (compute g1 g2 OperationType.DIFFERENCE).contours.length ≠ 1 := by omega
    simp [polygon_difference, h1, h2, h0, hone]

/-- Witness for the amended C1 at concrete inputs, one per contour count:
zero contours, one contour, two contours. -/
theorem polygon_difference_contour_cases_witness :
    polygon_difference cArea cComputeZero cP1 cP2 = DiffResult.nullResult ∧
    polygon_difference cArea cCompute cP1 cP2
      = DiffResult.polygonOfContours [cRing] [] ∧
    polygon_difference cArea cComputeTwo cP1 cP2
      = DiffResult.multiPolygonOfResult ⟨[cRing, cRing]⟩ [] :=
  ⟨(polygon_difference_contour_cases cArea cComputeZero cP1 cP2
      (NormGeom.poly cRings) (NormGeom.poly cRings2) (by decide) (by decide)).1
      (by decide),
   (polygon_difference_contour_cases cArea cCompute cP1 cP2
      (NormGeom.poly cRings) (NormGeom.poly cRings2) (by decide) (by decide)).2.1
      (by decide),
   (polygon_difference_contour_cases cArea cComputeTwo cP1 cP2
      (NormGeom.poly cRings) (NormGeom.poly cRings2) (by decide) (by decide)).2.2
      (by decide)⟩

/-! ### C2: `circle` returns a closed ring of `steps + 1` coordinates -/

/-- C2: for every radius > 0 and integer steps ≥ 3, `circle` succeeds and
returns a Polygon whose coordinate ring has exactly `steps + 1` entries,
and the first and the last entry of that ring are identical (the ring is
closed by appending the first sampled coordinate after the loop). -/
theorem circle_closed_ring (dest : Destination) (center : Point) (radius steps : Int)
    (units : String) (kwargs : PyDict) (hr : 0 < radius) (hs : 3 ≤ steps) :
    ∃ poly, circle dest center radius steps units kwargs = Except.ok poly ∧
      (poly.coordinates.length : Int) = steps + 1 ∧
      poly.coordinates.head? = poly.coordinates.getLast? := by
  have hcond : ¬ (steps.toNat ≠ 0 ∧ radius = 0) := by
    rintro ⟨-, h0⟩
    omega
  have hlen : (circleSamples dest center radius steps
      (circleOptions steps units kwargs)).length = steps.toNat := by
    simp [circleSamples]
  rcases hsamp : circleSamples dest center radius steps
      (circleOptions steps units kwargs) with - | ⟨c, t⟩
  · exfalso
    rw [hsamp] at hlen
    simp only [List.length_nil] at hlen
    omega
  · rw [hsamp] at hlen
    refine ⟨⟨c :: (t ++ [c]), kwargs⟩, ?_, ?_, ?_⟩
    · simp [circle, hsamp]
      intro _
      omega
    · simp only [List.length_cons, List.length_append, List.length_nil]
      simp only [List.length_cons] at hlen
      omega
    · show some c = (c :: (t ++ [c])).getLast?
      rw [← List.cons_append, List.getLast?_concat]

/-- Witness for C2 at a concrete input: radius 5, steps 4. -/
theorem circle_closed_ring_witness :
    0 < (5 : Int) ∧ 3 ≤ (4 : Int) ∧
    ∃ poly, circle cDest cCenter 5 4 "km" [] = Except.ok poly ∧
      (poly.coordinates.length : Int) = 4 + 1 ∧
      poly.coordinates.head? = poly.coordinates.getLast? :=
  ⟨by decide, by decide,
   circle_closed_ring cDest cCenter 5 4 "km" [] (by decide) (by decide)⟩

/-! ### C3: the bearing divisor is the radius, not the step count -/

/-- C3: for radius > 0 and steps ≥ 1, the i-th sampled point of `circle`
(for each i in 0..steps, exclusive upper bound) is obtained by calling the
destination collaborator with bearing `i * (-360 / radius)` degrees — the
divisor is radius, not steps — and distance radius. -/
theorem circle_bearing_divisor_is_radius (dest : Destination) (center : Point)
    (radius steps : Int) (options : PyDict) (i : Nat)
    (hr : 0 < radius) (hs : 1 ≤ steps) (hi : i < steps.toNat) :
    (circleSamples dest center radius steps options)[i]?
      = some ((dest center radius ((i : ℚ) * ((-360) / (radius : ℚ)))
          options).geometry.coordinates) := by
  have hb : circleBearing radius i = (i : ℚ) * ((-360) / (radius : ℚ)) := by
    rw [circleBearing, mul_div_assoc]
  rw [circleSamples, List.getElem?_map _ _ i, List.getElem?_range hi]
  simp only [Option.map_some']
  rw [hb]

/-- Witness for C3 at a concrete input: radius 5, steps 4, i = 2. -/
theorem circle_bearing_divisor_is_radius_witness :
    (circleSamples cDest cCenter 5 4 [])[2]?
      = some ((cDest cCenter 5 ((2 : ℚ) * ((-360) / (5 : ℚ)))
          []).geometry.coordinates) :=
  circle_bearing_divisor_is_radius cDest cCenter 5 4 [] 2
    (by decide) (by decide) (by decide)

/-! ### C9: definedness of the partial operations inside `circle` -/

/-- C9: under the preconditions radius > 0 and steps ≥ 1 every partial
operation inside `circle` is defined and a polygon is returned; with the
loop running (steps ≥ 1), radius = 0 makes the bearing division fail with
ZeroDivisionError, and steps ≤ 0 makes the closing index access
`coordinates[0]` fail with IndexError before any polygon is returned. -/
theorem circle_partiality (dest : Destination) (center : Point)
    (radius steps : Int) (units : String) (kwargs : PyDict) :
    (0 < radius → 1 ≤ steps →
      ∃ poly, circle dest center radius steps units kwargs = Except.ok poly) ∧
    (radius = 0 → 1 ≤ steps →
      circle dest center radius steps units kwargs
        = Except.error CircleErr.zeroDivisionError) ∧
    (steps ≤ 0 →
      circle dest center radius steps units kwargs
        = Except.error CircleErr.indexError) := by
  refine ⟨?_, ?_, ?_⟩
  · intro hr hs
    have hlen : (circleSamples dest center radius steps
        (circleOptions steps units kwargs)).length = steps.toNat := by
      simp [circleSamples]
    rcases hsamp : circleSamples dest center radius steps
        (circleOptions steps units kwargs) with - | ⟨c, t⟩
    · exfalso
      rw [hsamp] at hlen
      simp only [List.length_nil] at hlen
      omega
    · refine ⟨⟨c :: (t ++ [c]), kwargs⟩, ?_⟩
      simp [circle, hsamp]
      intro _
      omega
  · intro h0 hs
    have hne : steps.toNat ≠ 0 := by omega
    simp [circle, h0, hne]
  · intro hs
    have h0 : steps.toNat = 0 := by omega
    simp [circle, circleSamples, h0]

/-- Witness for C9 at concrete inputs: radius 5 with steps 4 succeeds,
radius 0 with steps 4 raises the division error, steps 0 raises the index
error. -/
theorem circle_partiality_witness :
    (∃ poly, circle cDest cCenter 5 4 "km" [] = Except.ok poly) ∧
    circle cDest cCenter 0 4 "km" [] = Except.error CircleErr.zeroDivisionError ∧
    circle cDest cCenter 5 0 "km" [] = Except.error CircleErr.indexError :=
  ⟨(circle_partiality cDest cCenter 5 4 "km" []).1 (by decide) (by decide),
   (circle_partiality cDest cCenter 0 4 "km" []).2.1 rfl (by decide),
   (circle_partiality cDest cCenter 5 0 "km" []).2.2 (by decide)⟩

/-! ### C10: the options dictionary and the keyword-property passthrough -/

/-- Lookup distributes over append: the suffix wins when it has the key. -/
theorem pyGet_append (l1 l2 : PyDict) (k : String) :
    pyGet (l1 ++ l2) k
      = match pyGet l2 k with
        | some v => some v
        | none => pyGet l1 k := by
  induction l1 with
  | nil =>
    cases h : pyGet l2 k <;> simp [pyGet, h]
  | cons kv rest ih =>
    rw [List.cons_append]
    cases h : pyGet l2 k <;> cases h2 : pyGet rest k <;>
      simp [pyGet, ih, h, h2]

/-- Lookup is unchanged by a filter that keeps every entry with the key. -/
theorem pyGet_filter_of_keep (l : PyDict) (g : String × PVal → Bool) (k : String)
    (h : ∀ v, g (k, v) = true) :
    pyGet (l.filter g) k = pyGet l k := by
  induction l with
  | nil => rfl
  | cons kv rest ih =>
    by_cases hg : g kv = true
    · rw [List.filter_cons_of_pos hg]
      simp only [pyGet, ih]
    · rw [List.filter_cons_of_neg (by simpa using hg)]
      have hk : kv.1 ≠ k := by
        intro hk
        apply hg
        have : kv = (k, kv.2) := by
          cases kv
          simp_all
        rw [this]
        exact h kv.2
      simp only [pyGet, ih]
      cases h2 : pyGet rest k
      · simp [hk]
      · simp

/-- Lookup returns nothing after a filter that drops every entry with the
key. -/
theorem pyGet_filter_of_drop (l : PyDict) (g : String × PVal → Bool) (k : String)
    (h : ∀ v, g (k, v) = false) :
    pyGet (l.filter g) k = none := by
  induction l with
  | nil => rfl
  | cons kv rest ih =>
    by_cases hg : g kv = true
    · have hk : kv.1 ≠ k := by
        intro hk
        have : kv = (k, kv.2) := by
          cases kv
          simp_all
        rw [this] at hg
        rw [h kv.2] at hg
        cases hg
      rw [List.filter_cons_of_pos hg]
      simp [pyGet, ih, hk]
    · rw [List.filter_cons_of_neg (by simpa using hg)]
      exact ih

/-- The filter predicate used by `dictUpdate` for the `circleOptions` base
dictionary keeps exactly the keys other than "steps" and "units". -/
theorem circleOptions_eq (steps : Int) (units : String) (kwargs : PyDict) :
    circleOptions steps units kwargs
      = [("steps", match pyGet kwargs "steps" with
            | some v => v
            | none => PVal.int steps),
         ("units", match pyGet kwargs "units" with
            | some v => v
            | none => PVal.str units)]
        ++ kwargs.filter fun kv =>
            ! (decide ("steps" = kv.1) || (decide ("units" = kv.1) || false)) := by
  rw [circleOptions, dictUpdate]
  cases h1 : pyGet kwargs "steps" <;> cases h2 : pyGet kwargs "units" <;>
    simp [h1, h2, List.any]

/-- C10: the options dictionary passed to the destination collaborator on
every loop iteration of `circle` is `dict(steps=steps, units=units)`
updated with the caller's extra keyword properties — so it contains the
steps value and the units value unless the extra properties override them,
and it contains every caller-supplied extra property — and the same extra
keyword properties are also passed into the returned Polygon's
constructor. -/
theorem circle_options_and_props (dest : Destination) (center : Point)
    (radius steps : Int) (units : String) (kwargs : PyDict) :
    (∀ poly, circle dest center radius steps units kwargs = Except.ok poly →
      poly.coordinates
        = circleSamples dest center radius steps (circleOptions steps units kwargs)
            ++ [(circleSamples dest center radius steps
                  (circleOptions steps units kwargs)).headI] ∧
      poly.props = kwargs) ∧
    (pyGet kwargs "steps" = none →
      pyGet (circleOptions steps units kwargs) "steps" = some (PVal.int steps)) ∧
    (pyGet kwargs "units" = none →
      pyGet (circleOptions steps units kwargs) "units" = some (PVal.str units)) ∧
    (∀ k v, pyGet kwargs k = some v →
      pyGet (circleOptions steps units kwargs) k = some v) := by
  refine ⟨?_, ?_, ?_, ?_⟩
  · intro poly h
    simp only [circle] at h
    split at h
    · cases h
    · split at h
      · cases h
      · rw [Except.ok.injEq] at h
        rw [← h]
        exact ⟨rfl, rfl⟩
  · intro h
    rw [circleOptions_eq, pyGet_append,
      pyGet_filter_of_drop _ _ _ (fun v => by simp)]
    simp [pyGet, h]
  · intro h
    rw [circleOptions_eq, pyGet_append,
      pyGet_filter_of_drop _ _ _ (fun v => by simp)]
    simp [pyGet, h]
  · intro k v h
    rw [circleOptions_eq, pyGet_append]
    by_cases hk1 : k = "steps"
    · subst hk1
      rw [pyGet_filter_of_drop _ _ _ (fun v => by simp)]
      simp [pyGet, h]
    · by_cases hk2 : k = "units"
      · subst hk2
        rw [pyGet_filter_of_drop _ _ _ (fun v => by simp)]
        simp [pyGet, h]
      · rw [pyGet_filter_of_keep _ _ _ (fun v => by
          simp [(Ne.symm hk1 : "steps" ≠ k), (Ne.symm hk2 : "units" ≠ k)])]
        rw [h]

/-- Concrete extra keyword properties: "units" overrides the positional
units argument, "color" is a new key. -/
def cKwargs : PyDict := [("units", PVal.str "mi"), ("color", PVal.str "red")]

/-- Witness for C10 at concrete inputs: with kwargs overriding "units" and
adding "color", the options dictionary keeps the default steps entry,
takes the overridden units value and the extra key, and the returned
polygon carries the kwargs. -/
theorem circle_options_and_props_witness :
    (CirclePolygon.props
        ⟨circleSamples cDest cCenter 5 4 (circleOptions 4 "km" cKwargs)
            ++ [(circleSamples cDest cCenter 5 4
                  (circleOptions 4 "km" cKwargs)).headI], cKwargs⟩ = cKwargs) ∧
    pyGet (circleOptions 4 "km" cKwargs) "steps" = some (PVal.int 4) ∧
    pyGet (circleOptions 4 "km" cKwargs) "units" = some (PVal.str "mi") ∧
    pyGet (circleOptions 4 "km" cKwargs) "color" = some (PVal.str "red") :=
  ⟨((circle_options_and_props cDest cCenter 5 4 "km" cKwargs).1
      ⟨circleSamples cDest cCenter 5 4 (circleOptions 4 "km" cKwargs)
          ++ [(circleSamples cDest cCenter 5 4
                (circleOptions 4 "km" cKwargs)).headI], cKwargs⟩
      (by
        simp only [circle]
        split
        · exfalso
          omega
        · split
          · rename_i h
            exact absurd h (by decide)
          · rfl)).2,
   (circle_options_and_props cDest cCenter 5 4 "km" cKwargs).2.1 (by decide),
   (circle_options_and_props cDest cCenter 5 4 "km" cKwargs).2.2.2 "units"
      (PVal.str "mi") (by decide),
   (circle_options_and_props cDest cCenter 5 4 "km" cKwargs).2.2.2 "color"
      (PVal.str "red") (by decide)⟩

/-! ### C8: determinism of both operations -/

/-- C8: with the destination, area and clipping collaborators given as pure
functions, `circle` and `polygon_difference` are deterministic: any two
calls with equal arguments return equal results.  Both are modelled as
total functions of exactly their argument tuples, reflecting that the
source reads and writes no state outside its arguments. -/
theorem circle_and_difference_deterministic
    (dest dest' : Destination) (center center' : Point)
    (radius radius' steps steps' : Int) (units units' : String)
    (kwargs kwargs' : PyDict)
    (area area' : AreaFn) (compute compute' : ComputeFn)
    (p1 p1' p2 p2' : Geometry)
    (hdest : dest = dest') (hcenter : center = center')
    (hradius : radius = radius') (hsteps : steps = steps')
    (hunits : units = units') (hkwargs : kwargs = kwargs')
    (harea : area = area') (hcompute : compute = compute')
    (hp1 : p1 = p1') (hp2 : p2 = p2') :
    circle dest center radius steps units kwargs
      = circle dest' center' radius' steps' units' kwargs' ∧
    polygon_difference area compute p1 p2
      = polygon_difference area' compute' p1' p2' := by
  subst hdest hcenter hradius hsteps hunits hkwargs harea hcompute hp1 hp2
  exact ⟨rfl, rfl⟩

/-- Witness for C8 at concrete equal argument tuples. -/
theorem circle_and_difference_deterministic_witness :
    circle cDest cCenter 5 4 "km" [] = circle cDest cCenter 5 4 "km" [] ∧
    polygon_difference cArea cCompute cP1 cP2
      = polygon_difference cArea cCompute cP1 cP2 :=
  circle_and_difference_deterministic cDest cDest cCenter cCenter 5 5 4 4
    "km" "km" [] [] cArea cArea cCompute cCompute cP1 cP1 cP2 cP2
    rfl rfl rfl rfl rfl rfl rfl rfl rfl rfl

end Turfpy
